import Mathlib

/-!
# Verification of the p2 health-watch reconciliation core (package `watch`)

Shallow embedding of the node-local health-monitoring core: the
reconciliation diff `updatePods`, the fetch wrapper `updateHealthMonitors`,
the per-service worker step `checkHealth`, and the HTTP probe classifier
`StatusChecker.Check` / `resultFromCheck` / `getBody`.

Side effects of the Go code are made explicit:
* sending on a watch's shutdown channel is recorded in a `stops` list of
  channel tokens;
* starting a `MonitorHealth` goroutine for a new `PodWatch` is recorded in a
  `spawns` list;
* `healthManager.NewUpdater` and `make(chan bool, 1)` allocate fresh handles,
  modelled by a `fresh : Nat` token supply threaded through;
* log calls are recorded in a `warnings`/`logs` list;
* the HTTP response and transport error that `StatusCheck` (a plain
  `Client.Get`) would produce are passed in as explicit arguments
  (`Option HttpResponse`, `Option String`), and a body read outcome is part
  of the response value.
-/

namespace Watch

/-- The fields of `pods.Manifest` (declared outside the embedded package)
that the watch code reads: the service identity `Id`, the health-status
port `StatusPort`, and the HTTP-vs-HTTPS flag `StatusHTTP`. -/
structure Manifest where
  Id : String
  StatusPort : Nat
  StatusHTTP : Bool
deriving DecidableEq, Repr

/-- The `kp.ManifestResult` wrapper as used by `updatePods`: only its
`Manifest` field is read. -/
structure ManifestResult where
  Manifest : Manifest
deriving DecidableEq, Repr

/-- `StatusChecker` from the source: holds the data for one status check.
The shared `*http.Client` is modelled as an opaque token. -/
structure StatusChecker where
  ID : String
  Node : String
  URI : String
  Client : Nat
deriving DecidableEq, Repr

/-- `PodWatch` from the source: the manifest, the `kp.HealthUpdater`
handle (opaque token from `healthManager.NewUpdater`), the owned
`StatusChecker`, and the shutdown channel (opaque token from
`make(chan bool, 1)`). The logger field carries no data and is omitted. -/
structure PodWatch where
  manifest : Manifest
  updater : Nat
  statusChecker : StatusChecker
  shutdownCh : Nat
deriving DecidableEq, Repr

/-- Health classification of `health.Result.Status` (`health.Passing` /
`health.Critical`); these are the only two values the watch code produces. -/
inductive HealthStatus where
  | passing
  | critical
deriving DecidableEq, Repr

/-- `health.Result` as constructed by `resultFromCheck`. -/
structure HealthResult where
  ID : String
  Node : String
  Service : String
  Status : HealthStatus
  Output : String
deriving DecidableEq, Repr

/-- `kp.WatchResult` as constructed by `resToKPRes`. -/
structure WatchResult where
  Service : String
  Node : String
  Id : String
  Status : String
  Output : String
deriving DecidableEq, Repr

/-- The string form of a `health.Status` used by `resToKPRes`
(`string(res.Status)`). -/
def statusString : HealthStatus → String
  | HealthStatus.passing => "passing"
  | HealthStatus.critical => "critical"

/-- `resToKPRes` from the source. -/
def resToKPRes (res : HealthResult) : WatchResult :=
  { Service := res.Service
    Node := res.Node
    Id := res.ID
    Status := statusString res.Status
    Output := res.Output }

instance {ε α : Type} [DecidableEq ε] [DecidableEq α] :
    DecidableEq (Except ε α)
  | Except.error a, Except.error b =>
      if h : a = b then isTrue (by rw [h]) else isFalse (by simp [h])
  | Except.error _, Except.ok _ => isFalse (by simp)
  | Except.ok _, Except.error _ => isFalse (by simp)
  | Except.ok a, Except.ok b =>
      if h : a = b then isTrue (by rw [h]) else isFalse (by simp [h])

/-- An HTTP response as observed by `resultFromCheck`/`getBody`: the status
code, and the outcome of reading the body stream (`ioutil.ReadAll`), which
either yields the full body or fails with an error text. -/
structure HttpResponse where
  StatusCode : Int
  Body : Except String String
deriving DecidableEq, Repr

/-- `getBody` from the source: reads the body fully (the deferred
`resp.Body.Close()` releases the stream regardless of read outcome and has
no observable value); on read error returns `""` and the error. -/
def getBody (resp : HttpResponse) : String × Option String :=
  match resp.Body with
  | Except.error e => ("", some e)
  | Except.ok body => (body, none)

/-- `resultFromCheck` from the source. `resp`/`err` are the return values
of `StatusCheck()` (`sc.Client.Get(sc.URI)`): `none`/`some` model Go's
nil/non-nil pointer and error. -/
def resultFromCheck (sc : StatusChecker) (resp : Option HttpResponse)
    (err : Option String) : HealthResult × Option String :=
  match resp, err with
  | _, some e =>
      ({ ID := sc.ID, Node := sc.Node, Service := sc.ID,
         Status := HealthStatus.critical, Output := e }, none)
  | none, none =>
      ({ ID := sc.ID, Node := sc.Node, Service := sc.ID,
         Status := HealthStatus.critical, Output := "" }, none)
  | some r, none =>
      let b := getBody r
      ({ ID := sc.ID, Node := sc.Node, Service := sc.ID,
         Status := if 200 ≤ r.StatusCode ∧ r.StatusCode < 300 then
             HealthStatus.passing
           else HealthStatus.critical,
         Output := b.1 }, b.2)

/-- `StatusChecker.Check` from the source: classifies the outcome of
`StatusCheck()`. The probe outcome (response, transport error) is passed
in explicitly. -/
def Check (sc : StatusChecker) (resp : Option HttpResponse)
    (err : Option String) : HealthResult × Option String :=
  resultFromCheck sc resp err

/-- The membership test of the first `updatePods` loop: is the watched
pod's identity present in the reality snapshot
(`man.Manifest.Id == pod.manifest.Id` for some `man`)? -/
def inReality (reality : List ManifestResult) (id : String) : Bool :=
  reality.any fun man => man.Manifest.Id == id

/-- The membership test of the second `updatePods` loop: is the manifest's
identity already among the watched pods
(`man.Manifest.Id == pod.manifest.Id` for some `pod`)? -/
def inCurrent (pods : List PodWatch) (id : String) : Bool :=
  pods.any fun pod => pod.manifest.Id == id

/-- The probe URI built for a new `StatusChecker`:
`http://<node>:<port>/_status` when the manifest asks for HTTP,
`https://<node>:<port>/_status` otherwise. -/
def statusURI (node : String) (man : Manifest) : String :=
  if man.StatusHTTP then
    "http://" ++ node ++ ":" ++ toString man.StatusPort ++ "/_status"
  else
    "https://" ++ node ++ ":" ++ toString man.StatusPort ++ "/_status"

/-- The `PodWatch` built by `updatePods` for a manifest that is in reality
but not watched: a `StatusChecker` for the probe URI, a fresh updater from
`healthManager.NewUpdater` (token `fresh`), and a fresh buffered shutdown
channel (token `fresh + 1`). -/
def mkPodWatch (client : Nat) (node : String) (man : Manifest)
    (fresh : Nat) : PodWatch :=
  { manifest := man
    updater := fresh
    statusChecker :=
      { ID := man.Id, Node := node, URI := statusURI node man, Client := client }
    shutdownCh := fresh + 1 }

/-- Result of the second `updatePods` loop: the grown `newCurrent` list,
the pods whose `MonitorHealth` goroutine was started, and the next fresh
handle token. -/
structure SpawnResult where
  pods : List PodWatch
  spawns : List PodWatch
  fresh : Nat
deriving DecidableEq, Repr

/-- The second loop of `updatePods`: for each manifest in reality whose
identity is missing from `newCurrent` and whose status port is non-zero,
create a `PodWatch`, start its monitor goroutine, and append it to
`newCurrent`. -/
def spawnMissing (client : Nat) (node : String) :
    List ManifestResult → List PodWatch → Nat → SpawnResult
  | [], pods, fresh => { pods := pods, spawns := [], fresh := fresh }
  | man :: rest, pods, fresh =>
      if !inCurrent pods man.Manifest.Id && man.Manifest.StatusPort != 0 then
        let newPod := mkPodWatch client node man.Manifest fresh
        let r := spawnMissing client node rest (pods ++ [newPod]) (fresh + 2)
        { pods := r.pods, spawns := newPod :: r.spawns, fresh := r.fresh }
      else
        spawnMissing client node rest pods fresh

/-- Result of one `updatePods` run: the new watched set, the shutdown
channels signalled (`pod.shutdownCh <- true`, in iteration order), the
started watches, and the next fresh token. -/
structure UpdateResult where
  pods : List PodWatch
  stops : List Nat
  spawns : List PodWatch
  fresh : Nat
deriving DecidableEq, Repr

/-- `updatePods` from the source: the reconciliation diff. The first loop
keeps each watched pod whose identity is in reality and signals the
shutdown channel of each one that is not; the second loop
(`spawnMissing`) starts a watch for each reality manifest that is missing
and has a non-zero status port. -/
def updatePods (client : Nat) (current : List PodWatch)
    (reality : List ManifestResult) (node : String) (fresh : Nat) :
    UpdateResult :=
  let newCurrent := current.filter fun pod => inReality reality pod.manifest.Id
  let stops := (current.filter fun pod => !inReality reality pod.manifest.Id).map
    fun pod => pod.shutdownCh
  let s := spawnMissing client node reality newCurrent fresh
  { pods := s.pods, stops := stops, spawns := s.spawns, fresh := s.fresh }

/-- The identities of a watched set. -/
def podIds (pods : List PodWatch) : List String :=
  pods.map fun pod => pod.manifest.Id

/-- The identities occurring in a reality snapshot. -/
def realityIds (reality : List ManifestResult) : List String :=
  reality.map fun man => man.Manifest.Id

/-- Result of one `updateHealthMonitors` call (one reconciliation cycle):
the `updatePods` outcome, plus any warnings logged. -/
structure CycleResult where
  pods : List PodWatch
  stops : List Nat
  spawns : List PodWatch
  warnings : List String
  fresh : Nat
deriving DecidableEq, Repr

/-- `updateHealthMonitors` from the source. The store fetch is passed in
as its outcome. Modelled from the spec: `kp.Store.ListPods` is not under
`src/`; per the spec ("on fetch error: log a warning and treat the
snapshot as empty for this cycle") and Go convention, a failed fetch
yields a nil (empty) manifest slice alongside the error, which the code
then feeds to `updatePods` after logging the warning. -/
def updateHealthMonitors (client : Nat) (watchedPods : List PodWatch)
    (fetch : Except String (List ManifestResult)) (node : String)
    (fresh : Nat) : CycleResult :=
  match fetch with
  | Except.error e =>
      let u := updatePods client watchedPods [] node fresh
      { pods := u.pods, stops := u.stops, spawns := u.spawns,
        warnings := ["failed to get pods from reality store: " ++ e],
        fresh := u.fresh }
  | Except.ok reality =>
      let u := updatePods client watchedPods reality node fresh
      { pods := u.pods, stops := u.stops, spawns := u.spawns,
        warnings := [], fresh := u.fresh }

/-- One event observed by the `MonitorPodHealth` select loop: either the
poll timer fires (carrying the store fetch outcome of that cycle), or the
global shutdown channel is signalled. -/
inductive LoopEvent where
  | timer (fetch : Except String (List ManifestResult))
  | shutdown
deriving DecidableEq, Repr

/-- Outcome of one `MonitorPodHealth` loop iteration: the new watched set,
the shutdown channels signalled, the watches started, warnings logged,
whether `healthManager.Close()` was called, and whether the loop
continues to the next iteration (`false` only on `return`). -/
structure LoopStep where
  pods : List PodWatch
  stops : List Nat
  spawns : List PodWatch
  warnings : List String
  closedManager : Bool
  continues : Bool
  fresh : Nat
deriving DecidableEq, Repr

/-- One iteration of the `MonitorPodHealth` select loop: on the poll timer
it runs `updateHealthMonitors` and loops again; on shutdown it signals
every watched pod's shutdown channel, closes the health manager, and
returns. -/
def monitorPodHealthStep (client : Nat) (node : String)
    (pods : List PodWatch) (fresh : Nat) : LoopEvent → LoopStep
  | LoopEvent.timer fetch =>
      let u := updateHealthMonitors client pods fetch node fresh
      { pods := u.pods, stops := u.stops, spawns := u.spawns,
        warnings := u.warnings, closedManager := false, continues := true,
        fresh := u.fresh }
  | LoopEvent.shutdown =>
      { pods := [], stops := pods.map fun pod => pod.shutdownCh, spawns := [],
        warnings := [], closedManager := true, continues := false,
        fresh := fresh }

/-- Effects of one worker cycle (`checkHealth`, or one `MonitorHealth`
iteration): log entries, publication attempts (each element one
`PutHealth` call), and whether the worker stopped. -/
structure WorkerCycle where
  logs : List String
  published : List WatchResult
  stopped : Bool
deriving DecidableEq, Repr

/-- Modelled from the spec: `kp.HealthUpdater.PutHealth` is not under
`src/`. Per the spec, result publication is a best-effort write; a publish
failure is logged but the result is not retried and the worker is not
failed. One call makes exactly one publication attempt. -/
def putHealth (publishErr : Option String) (res : WatchResult) :
    List String × List WatchResult :=
  match publishErr with
  | some e => (["failed to write health result: " ++ e], [res])
  | none => ([], [res])

/-- `checkHealth` from the source: run the status check; if it returned an
error, log it and skip publication; otherwise publish the converted
result through the updater. The check outcome and the publish outcome are
passed in explicitly. -/
def checkHealth (checkOutcome : HealthResult × Option String)
    (publishErr : Option String) : WorkerCycle :=
  match checkOutcome with
  | (_, some e) =>
      { logs := ["health check failed: " ++ e], published := [],
        stopped := false }
  | (h, none) =>
      let p := putHealth publishErr (resToKPRes h)
      { logs := p.1, published := p.2, stopped := false }

/-- One event observed by the `MonitorHealth` select loop: either the
probe timer fires (carrying that cycle's check and publish outcomes), or
the pod's shutdown channel is signalled. -/
inductive WorkerEvent where
  | timer (checkOutcome : HealthResult × Option String)
      (publishErr : Option String)
  | stop
deriving DecidableEq, Repr

/-- One iteration of the `MonitorHealth` select loop: on the probe timer
it runs `checkHealth` and stays running; on a shutdown signal it closes
the updater and exits (terminal). -/
def monitorHealthStep : WorkerEvent → WorkerCycle
  | WorkerEvent.timer checkOutcome publishErr => checkHealth checkOutcome publishErr
  | WorkerEvent.stop => { logs := [], published := [], stopped := true }

end Watch

namespace Watch

theorem inCurrent_eq_true_iff (pods : List PodWatch) (id : String) :
    inCurrent pods id = true ↔ id ∈ podIds pods := by
  simp only [inCurrent, podIds, List.any_eq_true, beq_iff_eq, List.mem_map]

theorem inReality_eq_true_iff (reality : List ManifestResult) (id : String) :
    inReality reality id = true ↔ id ∈ realityIds reality := by
  simp only [inReality, realityIds, List.any_eq_true, beq_iff_eq, List.mem_map]

theorem inCurrent_append (l₁ l₂ : List PodWatch) (id : String) :
    inCurrent (l₁ ++ l₂) id = (inCurrent l₁ id || inCurrent l₂ id) := by
  simp [inCurrent, List.any_append]

theorem podIds_append (l₁ l₂ : List PodWatch) :
    podIds (l₁ ++ l₂) = podIds l₁ ++ podIds l₂ := by
  simp [podIds]

theorem spawnMissing_pods_eq_append (client : Nat) (node : String)
    (ms : List ManifestResult) :
    ∀ (pods : List PodWatch) (fresh : Nat),
      (spawnMissing client node ms pods fresh).pods =
        pods ++ (spawnMissing client node ms pods fresh).spawns := by
  induction ms with
  | nil => intro pods fresh; simp [spawnMissing]
  | cons man rest ih =>
      intro pods fresh
      cases h :
        (!inCurrent pods man.Manifest.Id && man.Manifest.StatusPort != 0) with
      | true =>
          simp only [spawnMissing, h, if_true, ite_true]
          rw [ih]
          simp
      | false =>
          simp only [spawnMissing, h, Bool.false_eq_true, if_false, ite_false]
          exact ih pods fresh

theorem inCurrent_spawnMissing_mono (client : Nat) (node : String)
    (ms : List ManifestResult) (pods : List PodWatch) (fresh : Nat)
    (id : String) (h : inCurrent pods id = true) :
    inCurrent (spawnMissing client node ms pods fresh).pods id = true := by
  rw [spawnMissing_pods_eq_append, inCurrent_append, h, Bool.true_or]

theorem spawnMissing_covers (client : Nat) (node : String)
    (ms : List ManifestResult) :
    ∀ (pods : List PodWatch) (fresh : Nat) (man : ManifestResult),
      man ∈ ms → man.Manifest.StatusPort ≠ 0 →
      inCurrent (spawnMissing client node ms pods fresh).pods
        man.Manifest.Id = true := by
  induction ms with
  | nil => intro pods fresh man hmem _; exact absurd hmem (List.not_mem_nil man)
  | cons m rest ih =>
      intro pods fresh man hmem hport
      cases h :
        (!inCurrent pods m.Manifest.Id && m.Manifest.StatusPort != 0) with
      | true =>
          simp only [spawnMissing, h, if_true, ite_true]
          rcases List.mem_cons.mp hmem with heq | hrest
          · subst heq
            apply inCurrent_spawnMissing_mono
            rw [inCurrent_append, Bool.or_eq_true]
            right
            simp [inCurrent, mkPodWatch]
          · exact ih _ _ man hrest hport
      | false =>
          simp only [spawnMissing, h, Bool.false_eq_true, if_false, ite_false]
          rcases List.mem_cons.mp hmem with heq | hrest
          · subst heq
            simp only [Bool.and_eq_false_iff, Bool.not_eq_false',
              bne_eq_false_iff_eq] at h
            have hcur : inCurrent pods man.Manifest.Id = true := by
              rcases h with h1 | h2
              · exact h1
              · exact absurd h2 hport
            exact inCurrent_spawnMissing_mono client node rest pods fresh _ hcur
          · exact ih _ _ man hrest hport

theorem spawnMissing_mem_pods (client : Nat) (node : String)
    (ms : List ManifestResult) :
    ∀ (pods : List PodWatch) (fresh : Nat) (w : PodWatch),
      w ∈ (spawnMissing client node ms pods fresh).pods →
      w ∈ pods ∨ ∃ man ∈ ms, man.Manifest.StatusPort ≠ 0 ∧
        w.manifest = man.Manifest := by
  induction ms with
  | nil => intro pods fresh w hw; exact Or.inl (by simpa [spawnMissing] using hw)
  | cons m rest ih =>
      intro pods fresh w hw
      cases h :
        (!inCurrent pods m.Manifest.Id && m.Manifest.StatusPort != 0) with
      | true =>
          simp only [spawnMissing, h, if_true, ite_true] at hw
          have hport : m.Manifest.StatusPort ≠ 0 := by
            simp only [Bool.and_eq_true, bne_iff_ne] at h
            exact h.2
          rcases ih _ _ w hw with hmem | ⟨man, hman, hp, hmf⟩
          · rcases List.mem_append.mp hmem with hp2 | hnew
            · exact Or.inl hp2
            · refine Or.inr ⟨m, List.mem_cons_self m rest, hport, ?_⟩
              rw [List.mem_singleton.mp hnew]
              rfl
          · exact Or.inr ⟨man, List.mem_cons_of_mem m hman, hp, hmf⟩
      | false =>
          simp only [spawnMissing, h, Bool.false_eq_true, if_false, ite_false]
            at hw
          rcases ih _ _ w hw with hmem | ⟨man, hman, hp, hmf⟩
          · exact Or.inl hmem
          · exact Or.inr ⟨man, List.mem_cons_of_mem m hman, hp, hmf⟩

theorem spawnMissing_mem_spawns (client : Nat) (node : String)
    (ms : List ManifestResult) :
    ∀ (pods : List PodWatch) (fresh : Nat) (w : PodWatch),
      w ∈ (spawnMissing client node ms pods fresh).spawns →
      inCurrent pods w.manifest.Id = false ∧
      ∃ man ∈ ms, man.Manifest.StatusPort ≠ 0 ∧
        w.manifest = man.Manifest := by
  induction ms with
  | nil => intro pods fresh w hw; simp [spawnMissing] at hw
  | cons m rest ih =>
      intro pods fresh w hw
      cases h :
        (!inCurrent pods m.Manifest.Id && m.Manifest.StatusPort != 0) with
      | true =>
          simp only [spawnMissing, h, if_true, ite_true, List.mem_cons] at hw
          simp only [Bool.and_eq_true, Bool.not_eq_true', bne_iff_ne] at h
          rcases hw with heq | htail
          · subst heq
            exact ⟨by simpa [mkPodWatch] using h.1, m,
              List.mem_cons_self m rest, h.2, rfl⟩
          · rcases ih _ _ w htail with ⟨hcur, man, hman, hp, hmf⟩
            rw [inCurrent_append] at hcur
            simp only [Bool.or_eq_false_iff] at hcur
            exact ⟨hcur.1, man, List.mem_cons_of_mem m hman, hp, hmf⟩
      | false =>
          simp only [spawnMissing, h, Bool.false_eq_true, if_false, ite_false]
            at hw
          rcases ih _ _ w hw with ⟨hcur, man, hman, hp, hmf⟩
          exact ⟨hcur, man, List.mem_cons_of_mem m hman, hp, hmf⟩

theorem spawnMissing_nodup (client : Nat) (node : String)
    (ms : List ManifestResult) :
    ∀ (pods : List PodWatch) (fresh : Nat), (podIds pods).Nodup →
      (podIds (spawnMissing client node ms pods fresh).pods).Nodup := by
  induction ms with
  | nil => intro pods fresh hnd; simpa [spawnMissing] using hnd
  | cons m rest ih =>
      intro pods fresh hnd
      cases h :
        (!inCurrent pods m.Manifest.Id && m.Manifest.StatusPort != 0) with
      | true =>
          simp only [spawnMissing, h, if_true, ite_true]
          apply ih
          simp only [Bool.and_eq_true, Bool.not_eq_true', bne_iff_ne] at h
          have hnotmem : m.Manifest.Id ∉ podIds pods := by
            intro hmem
            rw [← inCurrent_eq_true_iff] at hmem
            rw [h.1] at hmem
            exact Bool.false_ne_true hmem
          rw [podIds_append, List.nodup_append]
          refine ⟨hnd, by simp [podIds], ?_⟩
          intro a ha hb
          simp only [podIds, mkPodWatch, List.map_cons, List.map_nil,
            List.mem_singleton] at hb
          rw [hb] at ha
          exact hnotmem ha
      | false =>
          simp only [spawnMissing, h, Bool.false_eq_true, if_false, ite_false]
          exact ih pods fresh hnd

theorem spawnMissing_no_op (client : Nat) (node : String)
    (ms : List ManifestResult) :
    ∀ (pods : List PodWatch) (fresh : Nat),
      (∀ man ∈ ms, man.Manifest.StatusPort ≠ 0 →
        inCurrent pods man.Manifest.Id = true) →
      spawnMissing client node ms pods fresh =
        { pods := pods, spawns := [], fresh := fresh } := by
  induction ms with
  | nil => intro pods fresh _; rfl
  | cons m rest ih =>
      intro pods fresh hcov
      have hcond :
          (!inCurrent pods m.Manifest.Id && m.Manifest.StatusPort != 0)
            = false := by
        by_cases hp : m.Manifest.StatusPort = 0
        · simp [hp]
        · have := hcov m (List.mem_cons_self m rest) hp
          simp [this]
      simp only [spawnMissing, hcond, Bool.false_eq_true, if_false, ite_false]
      exact ih pods fresh fun man hman => hcov man (List.mem_cons_of_mem m hman)

theorem updatePods_empty_reality (client : Nat) (current : List PodWatch)
    (node : String) (fresh : Nat) :
    updatePods client current [] node fresh =
      { pods := [], stops := current.map fun pod => pod.shutdownCh,
        spawns := [], fresh := fresh } := by
  simp [updatePods, inReality, spawnMissing]

/-- C8: a transport error (no response) yields a critical result whose
output is the error text, with a nil returned error. -/
theorem resultFromCheck_transport_error (sc : StatusChecker) (e : String) :
    resultFromCheck sc none (some e) =
      ({ ID := sc.ID, Node := sc.Node, Service := sc.ID,
         Status := HealthStatus.critical, Output := e }, none) := rfl

/-- C9: when a response arrives but reading its body fails, the result has
empty output, the passing/critical classification still follows the status
code, and the read error is returned to the caller. -/
theorem resultFromCheck_body_read_error (sc : StatusChecker) (code : Int)
    (e : String) :
    (resultFromCheck sc (some { StatusCode := code, Body := Except.error e })
        none).1.Output = "" ∧
    (resultFromCheck sc (some { StatusCode := code, Body := Except.error e })
        none).2 = some e ∧
    ((resultFromCheck sc (some { StatusCode := code, Body := Except.error e })
        none).1.Status = HealthStatus.passing ↔ 200 ≤ code ∧ code < 300) := by
  refine ⟨rfl, rfl, ?_⟩
  simp only [resultFromCheck, getBody]
  by_cases h : 200 ≤ code ∧ code < 300 <;> simp [h]

/-- C10: `Check` on a nil response with a nil error returns a critical
result with empty output and a nil error (the nil response is never
dereferenced), and in every outcome the result's `ID` and `Service` equal
the checker's `ID` and its `Node` equals the checker's `Node`. -/
theorem check_total_on_nil_response (sc : StatusChecker) :
    Check sc none none =
      ({ ID := sc.ID, Node := sc.Node, Service := sc.ID,
         Status := HealthStatus.critical, Output := "" }, none) ∧
    ∀ resp err, (Check sc resp err).1.ID = sc.ID ∧
      (Check sc resp err).1.Service = sc.ID ∧
      (Check sc resp err).1.Node = sc.Node := by
  refine ⟨rfl, ?_⟩
  intro resp err
  cases resp <;> cases err <;> simp [Check, resultFromCheck]

/-- C2: for every received HTTP response, the result is passing exactly
when the status code lies in [200, 300) and critical otherwise, and when
the body reads as `body` the result's output is that body. -/
theorem resultFromCheck_classification (sc : StatusChecker)
    (r : HttpResponse) (body : String) (hbody : r.Body = Except.ok body) :
    ((resultFromCheck sc (some r) none).1.Status = HealthStatus.passing ↔
        200 ≤ r.StatusCode ∧ r.StatusCode < 300) ∧
    ((resultFromCheck sc (some r) none).1.Status = HealthStatus.critical ↔
        ¬(200 ≤ r.StatusCode ∧ r.StatusCode < 300)) ∧
    (resultFromCheck sc (some r) none).1.Output = body := by
  simp only [resultFromCheck, getBody, hbody]
  by_cases h : 200 ≤ r.StatusCode ∧ r.StatusCode < 300 <;> simp [h]

/-- Witness for C2 at status code 200 with body `"ok"`. -/
theorem resultFromCheck_classification_witness :
    ((resultFromCheck { ID := "svc", Node := "n", URI := "u", Client := 0 }
        (some { StatusCode := 200, Body := Except.ok "ok" }) none).1.Status =
          HealthStatus.passing ↔ (200 : Int) ≤ 200 ∧ (200 : Int) < 300) ∧
    ((resultFromCheck { ID := "svc", Node := "n", URI := "u", Client := 0 }
        (some { StatusCode := 200, Body := Except.ok "ok" }) none).1.Status =
          HealthStatus.critical ↔ ¬((200 : Int) ≤ 200 ∧ (200 : Int) < 300)) ∧
    (resultFromCheck { ID := "svc", Node := "n", URI := "u", Client := 0 }
        (some { StatusCode := 200, Body := Except.ok "ok" }) none).1.Output =
      "ok" :=
  resultFromCheck_classification
    { ID := "svc", Node := "n", URI := "u", Client := 0 }
    { StatusCode := 200, Body := Except.ok "ok" } "ok" rfl


/-- C7: reconciliation is idempotent — running `updatePods` a second time
with the same snapshot returns the same supervised set, signals no
shutdown channel, and starts no new watch. -/
theorem updatePods_idempotent (client : Nat) (current : List PodWatch)
    (reality : List ManifestResult) (node : String) (fresh fresh' : Nat) :
    (updatePods client (updatePods client current reality node fresh).pods
        reality node fresh').pods =
      (updatePods client current reality node fresh).pods ∧
    (updatePods client (updatePods client current reality node fresh).pods
        reality node fresh').stops = [] ∧
    (updatePods client (updatePods client current reality node fresh).pods
        reality node fresh').spawns = [] := by
  have hpods : (updatePods client current reality node fresh).pods =
      (spawnMissing client node reality
        (current.filter fun pod => inReality reality pod.manifest.Id)
        fresh).pods := rfl
  have hreal : ∀ w ∈ (updatePods client current reality node fresh).pods,
      inReality reality w.manifest.Id = true := by
    intro w hw
    rw [hpods] at hw
    rcases spawnMissing_mem_pods client node reality _ _ w hw with
      hmem | ⟨man, hman, _, hmf⟩
    · exact (List.mem_filter.mp hmem).2
    · rw [inReality_eq_true_iff]
      simp only [realityIds, List.mem_map]
      exact ⟨man, hman, by rw [hmf]⟩
  have hcov : ∀ man ∈ reality, man.Manifest.StatusPort ≠ 0 →
      inCurrent (updatePods client current reality node fresh).pods
        man.Manifest.Id = true := by
    intro man hman hport
    rw [hpods]
    exact spawnMissing_covers client node reality _ fresh man hman hport
  have hfilter : ((updatePods client current reality node fresh).pods.filter
      fun pod => inReality reality pod.manifest.Id) =
      (updatePods client current reality node fresh).pods :=
    List.filter_eq_self.mpr hreal
  have hstops : ((updatePods client current reality node fresh).pods.filter
      fun pod => !inReality reality pod.manifest.Id) = [] := by
    rw [List.filter_eq_nil_iff]
    intro a ha
    simp [hreal a ha]
  have hnoop := spawnMissing_no_op client node reality
    (updatePods client current reality node fresh).pods fresh' hcov
  refine ⟨?_, ?_, ?_⟩
  · show (spawnMissing client node reality
        ((updatePods client current reality node fresh).pods.filter
          fun pod => inReality reality pod.manifest.Id) fresh').pods = _
    rw [hfilter, hnoop]
  · show (((updatePods client current reality node fresh).pods.filter
        fun pod => !inReality reality pod.manifest.Id).map
      fun pod => pod.shutdownCh) = []
    rw [hstops]
    rfl
  · show (spawnMissing client node reality
        ((updatePods client current reality node fresh).pods.filter
          fun pod => inReality reality pod.manifest.Id) fresh').spawns = []
    rw [hfilter, hnoop]

/-- C1 (counterexample): as stated over any prior supervised set the claim
fails — a prior set that already holds two watches for the same identity
keeps both when that identity is in the snapshot, so the result does not
have at most one watch per identity even though every snapshot port is
non-zero. -/
theorem updatePods_correspondence_counterexample :
    (∀ man ∈ ([{ Manifest :=
          { Id := "a", StatusPort := 8080, StatusHTTP := true } }] :
        List ManifestResult), man.Manifest.StatusPort ≠ 0) ∧
    ¬ (podIds (updatePods 0
        [{ manifest := { Id := "a", StatusPort := 8080, StatusHTTP := true },
           updater := 0,
           statusChecker := { ID := "a", Node := "n", URI := "http://n:8080/_status", Client := 0 },
           shutdownCh := 1 },
         { manifest := { Id := "a", StatusPort := 8080, StatusHTTP := true },
           updater := 2,
           statusChecker := { ID := "a", Node := "n", URI := "http://n:8080/_status", Client := 0 },
           shutdownCh := 3 }]
        [{ Manifest := { Id := "a", StatusPort := 8080, StatusHTTP := true } }]
        "n" 4).pods).Nodup := by decide

/-- C1 (amended): for every snapshot whose descriptors all carry a
non-zero status port, and every prior supervised set with pairwise
distinct identities (the invariant `updatePods` itself maintains), one
reconciliation yields a supervised set whose identities are exactly the
identities occurring in the snapshot, with at most one watch per identity
even if the snapshot lists an identity more than once. -/
theorem updatePods_exact_correspondence (client : Nat)
    (current : List PodWatch) (reality : List ManifestResult)
    (node : String) (fresh : Nat)
    (hports : ∀ man ∈ reality, man.Manifest.StatusPort ≠ 0)
    (hnodup : (podIds current).Nodup) :
    (∀ id, id ∈ podIds (updatePods client current reality node fresh).pods ↔
      id ∈ realityIds reality) ∧
    (podIds (updatePods client current reality node fresh).pods).Nodup := by
  have hpods : (updatePods client current reality node fresh).pods =
      (spawnMissing client node reality
        (current.filter fun pod => inReality reality pod.manifest.Id)
        fresh).pods := rfl
  constructor
  · intro id
    constructor
    · intro hid
      rw [hpods] at hid
      simp only [podIds, List.mem_map] at hid
      rcases hid with ⟨w, hw, hwid⟩
      rcases spawnMissing_mem_pods client node reality _ _ w hw with
        hmem | ⟨man, hman, _, hmf⟩
      · have hr := (List.mem_filter.mp hmem).2
        rw [← hwid, ← inReality_eq_true_iff]
        exact hr
      · rw [← hwid]
        simp only [realityIds, List.mem_map]
        exact ⟨man, hman, by rw [hmf]⟩
    · intro hid
      simp only [realityIds, List.mem_map] at hid
      rcases hid with ⟨man, hman, hmid⟩
      have hcov := spawnMissing_covers client node reality
        (current.filter fun pod => inReality reality pod.manifest.Id) fresh
        man hman (hports man hman)
      rw [← hpods, inCurrent_eq_true_iff] at hcov
      rw [← hmid]
      exact hcov
  · rw [hpods]
    apply spawnMissing_nodup
    have hsub : List.Sublist (podIds (current.filter
        fun pod => inReality reality pod.manifest.Id)) (podIds current) :=
      List.Sublist.map _ (List.filter_sublist current)
    exact List.Nodup.sublist hsub hnodup

/-- Witness for C1 (amended) at a one-watch prior set and a two-service
snapshot. -/
theorem updatePods_exact_correspondence_witness :
    (∀ id, id ∈ podIds (updatePods 0
        [{ manifest := { Id := "a", StatusPort := 8080, StatusHTTP := true },
           updater := 0,
           statusChecker := { ID := "a", Node := "n", URI := "http://n:8080/_status", Client := 0 },
           shutdownCh := 1 }]
        [{ Manifest := { Id := "a", StatusPort := 8080, StatusHTTP := true } },
         { Manifest := { Id := "b", StatusPort := 9090, StatusHTTP := false } }]
        "n" 2).pods ↔
      id ∈ realityIds
        [{ Manifest := { Id := "a", StatusPort := 8080, StatusHTTP := true } },
         { Manifest := { Id := "b", StatusPort := 9090, StatusHTTP := false } }]) ∧
    (podIds (updatePods 0
        [{ manifest := { Id := "a", StatusPort := 8080, StatusHTTP := true },
           updater := 0,
           statusChecker := { ID := "a", Node := "n", URI := "http://n:8080/_status", Client := 0 },
           shutdownCh := 1 }]
        [{ Manifest := { Id := "a", StatusPort := 8080, StatusHTTP := true } },
         { Manifest := { Id := "b", StatusPort := 9090, StatusHTTP := false } }]
        "n" 2).pods).Nodup :=
  updatePods_exact_correspondence 0
    [{ manifest := { Id := "a", StatusPort := 8080, StatusHTTP := true },
       updater := 0,
       statusChecker := { ID := "a", Node := "n", URI := "http://n:8080/_status", Client := 0 },
       shutdownCh := 1 }]
    [{ Manifest := { Id := "a", StatusPort := 8080, StatusHTTP := true } },
     { Manifest := { Id := "b", StatusPort := 9090, StatusHTTP := false } }]
    "n" 2 (by decide) (by decide)

/-- C4 (counterexample): an identity that is already supervised and stays
in the snapshot is retained by the identity-only diff even when its
descriptor's status port has changed to 0, so it is still present in the
supervised set after reconciling a snapshot in which its only descriptor
carries port 0. -/
theorem updatePods_zero_port_counterexample :
    (∀ man ∈ ([{ Manifest :=
          { Id := "a", StatusPort := 0, StatusHTTP := true } }] :
        List ManifestResult), man.Manifest.StatusPort = 0) ∧
    "a" ∈ podIds (updatePods 0
        [{ manifest := { Id := "a", StatusPort := 8080, StatusHTTP := true },
           updater := 0,
           statusChecker := { ID := "a", Node := "n", URI := "http://n:8080/_status", Client := 0 },
           shutdownCh := 1 }]
        [{ Manifest := { Id := "a", StatusPort := 0, StatusHTTP := true } }]
        "n" 2).pods := by decide

/-- C4 (amended): an identity that is not currently supervised and all of
whose descriptors in the snapshot carry status port 0 is absent from the
supervised set after reconciliation (a port-0 descriptor never causes a
watch to be started); an identity already supervised that remains in the
snapshot is however retained by the identity-only diff even if its port
changed to 0. -/
theorem updatePods_zero_port_exclusion (client : Nat)
    (current : List PodWatch) (reality : List ManifestResult)
    (node : String) (fresh : Nat) (id : String)
    (hnot : id ∉ podIds current)
    (hzero : ∀ man ∈ reality, man.Manifest.Id = id →
      man.Manifest.StatusPort = 0) :
    id ∉ podIds (updatePods client current reality node fresh).pods := by
  intro hid
  have hpods : (updatePods client current reality node fresh).pods =
      (spawnMissing client node reality
        (current.filter fun pod => inReality reality pod.manifest.Id)
        fresh).pods := rfl
  rw [hpods] at hid
  simp only [podIds, List.mem_map] at hid
  rcases hid with ⟨w, hw, hwid⟩
  rcases spawnMissing_mem_pods client node reality _ _ w hw with
    hmem | ⟨man, hman, hport, hmf⟩
  · have hcur : w ∈ current := (List.mem_filter.mp hmem).1
    refine hnot ?_
    simp only [podIds, List.mem_map]
    exact ⟨w, hcur, hwid⟩
  · have hmid : man.Manifest.Id = id := by rw [← hwid, hmf]
    exact hport (hzero man hman hmid)

/-- Witness for C4 (amended): a port-0 descriptor for an unsupervised
identity never enters the supervised set. -/
theorem updatePods_zero_port_exclusion_witness :
    "a" ∉ podIds (updatePods 0 []
        [{ Manifest := { Id := "a", StatusPort := 0, StatusHTTP := true } }]
        "n" 0).pods :=
  updatePods_zero_port_exclusion 0 []
    [{ Manifest := { Id := "a", StatusPort := 0, StatusHTTP := true } }]
    "n" 0 "a" (by decide) (by decide)

/-- C6: an identity present in both the current supervised set and the new
snapshot keeps its `PodWatch` value entirely unchanged (same manifest,
same updater, same status checker and URI, same shutdown channel), and no
started watch carries its identity. -/
theorem updatePods_frame (client : Nat) (current : List PodWatch)
    (reality : List ManifestResult) (node : String) (fresh : Nat)
    (pod : PodWatch) (hmem : pod ∈ current)
    (hreal : inReality reality pod.manifest.Id = true) :
    pod ∈ (updatePods client current reality node fresh).pods ∧
    ∀ w ∈ (updatePods client current reality node fresh).spawns,
      w.manifest.Id ≠ pod.manifest.Id := by
  have hfilter : pod ∈ current.filter
      fun p => inReality reality p.manifest.Id :=
    List.mem_filter.mpr ⟨hmem, hreal⟩
  have hpods : (updatePods client current reality node fresh).pods =
      (spawnMissing client node reality
        (current.filter fun p => inReality reality p.manifest.Id)
        fresh).pods := rfl
  have hspawns : (updatePods client current reality node fresh).spawns =
      (spawnMissing client node reality
        (current.filter fun p => inReality reality p.manifest.Id)
        fresh).spawns := rfl
  constructor
  · rw [hpods, spawnMissing_pods_eq_append]
    exact List.mem_append_left _ hfilter
  · intro w hw heq
    rw [hspawns] at hw
    rcases spawnMissing_mem_spawns client node reality _ _ w hw with
      ⟨hcur, _⟩
    have hin : inCurrent (current.filter
        fun p => inReality reality p.manifest.Id) w.manifest.Id = true := by
      rw [inCurrent_eq_true_iff, heq]
      simp only [podIds, List.mem_map]
      exact ⟨pod, hfilter, rfl⟩
    rw [hcur] at hin
    exact Bool.false_ne_true hin

/-- Witness for C6: a watch for identity `a` survives a snapshot in which
the descriptor's port and protocol changed, and the watch started for the
new identity `b` does not carry identity `a`. -/
theorem updatePods_frame_witness :
    ({ manifest := { Id := "a", StatusPort := 8080, StatusHTTP := true },
       updater := 0,
       statusChecker := { ID := "a", Node := "n", URI := "http://n:8080/_status", Client := 0 },
       shutdownCh := 1 } : PodWatch) ∈ (updatePods 0
        [{ manifest := { Id := "a", StatusPort := 8080, StatusHTTP := true },
           updater := 0,
           statusChecker := { ID := "a", Node := "n", URI := "http://n:8080/_status", Client := 0 },
           shutdownCh := 1 }]
        [{ Manifest := { Id := "a", StatusPort := 9999, StatusHTTP := false } },
         { Manifest := { Id := "b", StatusPort := 7070, StatusHTTP := true } }]
        "n" 2).pods ∧
    ∀ w ∈ (updatePods 0
        [{ manifest := { Id := "a", StatusPort := 8080, StatusHTTP := true },
           updater := 0,
           statusChecker := { ID := "a", Node := "n", URI := "http://n:8080/_status", Client := 0 },
           shutdownCh := 1 }]
        [{ Manifest := { Id := "a", StatusPort := 9999, StatusHTTP := false } },
         { Manifest := { Id := "b", StatusPort := 7070, StatusHTTP := true } }]
        "n" 2).spawns,
      w.manifest.Id ≠ ({ manifest := { Id := "a", StatusPort := 8080, StatusHTTP := true },
                         updater := 0,
                         statusChecker := { ID := "a", Node := "n", URI := "http://n:8080/_status", Client := 0 },
                         shutdownCh := 1 } : PodWatch).manifest.Id :=
  updatePods_frame 0
    [{ manifest := { Id := "a", StatusPort := 8080, StatusHTTP := true },
       updater := 0,
       statusChecker := { ID := "a", Node := "n", URI := "http://n:8080/_status", Client := 0 },
       shutdownCh := 1 }]
    [{ Manifest := { Id := "a", StatusPort := 9999, StatusHTTP := false } },
     { Manifest := { Id := "b", StatusPort := 7070, StatusHTTP := true } }]
    "n" 2
    { manifest := { Id := "a", StatusPort := 8080, StatusHTTP := true },
      updater := 0,
      statusChecker := { ID := "a", Node := "n", URI := "http://n:8080/_status", Client := 0 },
      shutdownCh := 1 }
    (by decide) (by decide)

/-- C3: when the store fetch fails, the cycle logs a warning and proceeds
as if the snapshot were empty: every supervised watch receives a stop
signal, no watch is started, the resulting supervised set is empty, and
the loop continues to the next cycle. -/
theorem monitorStep_fetch_error (client : Nat) (node : String)
    (current : List PodWatch) (fresh : Nat) (e : String) :
    monitorPodHealthStep client node current fresh
        (LoopEvent.timer (Except.error e)) =
      { pods := [], stops := current.map fun pod => pod.shutdownCh,
        spawns := [],
        warnings := ["failed to get pods from reality store: " ++ e],
        closedManager := false, continues := true, fresh := fresh } := by
  simp [monitorPodHealthStep, updateHealthMonitors, updatePods_empty_reality]

/-- C5: when the probe succeeds but publishing the result fails, the
worker logs the publication failure, stays running, makes exactly one
publication attempt for that result (no retry), and the cycle ends
normally. -/
theorem worker_publish_error_continues (h : HealthResult) (e : String) :
    monitorHealthStep (WorkerEvent.timer (h, none) (some e)) =
      { logs := ["failed to write health result: " ++ e],
        published := [resToKPRes h], stopped := false } := rfl

end Watch
